import Mathlib

/-!
Verification of the multi-agent customer-support assistant
(backend/agents/agents.py, backend/chatbot.py, backend/db/database.py,
backend/rag/rag_pipeline.py).  Strings are modelled as `List Char`; every
Python string operation used by the code (lower, upper, split, strip, the
substring test of the `in` operator, the two regular expressions) is
re-implemented below with its Python semantics restricted to ASCII input,
which is the alphabet of every keyword table and message of the program.
External collaborators (the SQLite store, the Chroma vector search, the LLM)
are passed in as explicit function parameters.
-/

namespace TcsMultiAgent

/-- Shorthand: a string literal as the character list the model works on. -/
def lts (s : String) : List Char := s.toList

/-- The characters Python treats as whitespace for str.split and str.strip
(ASCII range). -/
def isPySpace (c : Char) : Bool :=
  c = ' ' || c = '\t' || c = '\n' || c = '\r' || c = '\x0b' || c = '\x0c'

/-- Python substring test: `needle in hay`.  An empty needle is in
everything, as in Python. -/
def containsSub (needle : List Char) : List Char → Bool
  | [] => needle.isEmpty
  | c :: rest => needle.isPrefixOf (c :: rest) || containsSub needle rest

/-- Python str.lower on ASCII text. -/
def pyLower (s : List Char) : List Char := s.map Char.toLower

/-- Python str.upper on ASCII text. -/
def pyUpper (s : List Char) : List Char := s.map Char.toUpper

/-- Python str.split() with no argument: words between whitespace runs,
never producing empty words. -/
def pySplitAux : List Char → List Char → List (List Char)
  | [], acc => if acc.isEmpty then [] else [acc.reverse]
  | c :: rest, acc =>
    if isPySpace c then
      if acc.isEmpty then pySplitAux rest []
      else acc.reverse :: pySplitAux rest []
    else pySplitAux rest (c :: acc)

def pySplit (s : List Char) : List (List Char) := pySplitAux s []

/-- Python str.strip(chars): drop characters of the set from both ends. -/
def pyStripChars (cs s : List Char) : List Char :=
  ((s.dropWhile (fun c => cs.contains c)).reverse.dropWhile
      (fun c => cs.contains c)).reverse

/-- Python str.strip() with no argument: whitespace from both ends. -/
def pyStrip (s : List Char) : List Char :=
  ((s.dropWhile isPySpace).reverse.dropWhile isPySpace).reverse

/-- Join a list of words with a separator, as Python sep.join. -/
def joinWith (sep : List Char) : List (List Char) → List Char
  | [] => []
  | [w] => w
  | w :: ws => w ++ sep ++ joinWith sep ws

/-! ## CustomerAgent._extract_customer_name (agents.py lines 126-153) -/

/-- The keyword list of the extractor. -/
def extractKeywords : List (List Char) :=
  [lts "customer", lts "for", lts "profile", lts "tickets", lts "about"]

/-- The characters the extractor strips from a candidate token, Python
strip applied with the four characters apostrophe, s, comma, period. -/
def nameStripChars : List Char := ['\'', 's', ',', '.']

/-- First tier of the extractor: scan the split words; at a word whose
lower-casing is in the keyword list and which is not last, the next word is
stripped and returned unless empty or itself a keyword, in which case the
scan continues. -/
def keywordTier : List (List Char) → Option (List Char)
  | [] => none
  | [_] => none
  | w :: next :: rest =>
    if extractKeywords.contains (pyLower w) then
      let potential := pyStripChars nameStripChars next
      if !potential.isEmpty && !(extractKeywords.contains (pyLower potential)) then
        some potential
      else keywordTier (next :: rest)
    else keywordTier (next :: rest)

def isQuoteChar (c : Char) : Bool := c = '\'' || c = '\"'

/-- Second tier: the regular-expression search for a quoted span, which
finds the first quote character followed by a nonempty run of non-quote
characters and then another quote character, returning the run. -/
def quotedTier : List Char → Option (List Char)
  | [] => none
  | c :: rest =>
    if isQuoteChar c then
      let run := rest.takeWhile (fun x => !(isQuoteChar x))
      let rest2 := rest.dropWhile (fun x => !(isQuoteChar x))
      if !run.isEmpty && !rest2.isEmpty then some run
      else quotedTier rest
    else quotedTier rest

def headIsUpper : List Char → Bool
  | [] => false
  | c :: _ => c.isUpper

/-- Third tier: every word starting with an upper-case letter whose
lower-casing is not a keyword is stripped and collected; the first two are
joined with a space. -/
def capitalizedTier (words : List (List Char)) : Option (List Char) :=
  let names :=
    (words.filter
        (fun w => headIsUpper w && !(extractKeywords.contains (pyLower w)))).map
      (pyStripChars nameStripChars)
  if names.isEmpty then none else some (joinWith (lts " ") (names.take 2))

/-- CustomerAgent._extract_customer_name: the keyword tier, then the quoted
tier, then the capitalized tier, first success wins; absent otherwise. -/
def extractCustomerName (question : List Char) : Option (List Char) :=
  match keywordTier (pySplit question) with
  | some n => some n
  | none =>
    match quotedTier question with
    | some n => some n
    | none => capitalizedTier (pySplit question)

/-! ## PolicyAgent.process_query (agents.py lines 28-68) -/

/-- What query_policy_documents hands back: the fields the agent reads. -/
structure RagAnswer where
  question : List Char
  answer : List Char
  sources : List (List Char)
  deriving DecidableEq

/-- The PolicyAgent's collaborators: the policy-summary store and the RAG
query pipeline. -/
structure PolicyEnv where
  getPolicySummary : List Char → List Char
  queryPolicyDocuments : List Char → Nat → RagAnswer

/-- The two shapes of dictionary PolicyAgent.process_query returns
(timestamp and agent-name fields omitted: constant per shape). -/
inductive PolicyResult
  | summary (policy : List Char) (content : List Char)
  | ragQuery (question : List Char) (answer : List Char) (sources : List (List Char))
  deriving DecidableEq

/-- The trigger-keyword mapping, in its fixed insertion order. -/
def policyTriggers : List (List Char × List Char) :=
  [ (lts "refund", lts "refund_policy"),
    (lts "warranty", lts "warranty_policy"),
    (lts "shipping", lts "shipping_policy"),
    (lts "privacy", lts "privacy_policy"),
    (lts "terms", lts "terms_of_service") ]

def underscoreToSpace (s : List Char) : List Char :=
  s.map (fun c => if c = '_' then ' ' else c)

def isAsciiLetter (c : Char) : Bool := c.isUpper || c.isLower

/-- Python str.title on ASCII text: the first letter of each run of letters
upper-cased, the rest of the run lower-cased. -/
def pyTitleAux : Bool → List Char → List Char
  | _, [] => []
  | prevAlpha, c :: rest =>
    if isAsciiLetter c then
      (if prevAlpha then c.toLower else c.toUpper) :: pyTitleAux true rest
    else c :: pyTitleAux false rest

def pyTitle (s : List Char) : List Char := pyTitleAux false s

/-- PolicyAgent.process_query: the first trigger keyword that is a
case-insensitive substring of the question short-circuits to the policy
summary; otherwise the RAG pipeline is queried with top_k 3. -/
def policyProcessQuery (env : PolicyEnv) (question : List Char) : PolicyResult :=
  match policyTriggers.find?
      (fun kv => containsSub (pyLower kv.1) (pyLower question)) with
  | some kv =>
    .summary (pyTitle (underscoreToSpace kv.2)) (env.getPolicySummary kv.2)
  | none =>
    let r := env.queryPolicyDocuments question 3
    .ragQuery r.question r.answer r.sources

/-! ## CustomerAgent.process_query (agents.py lines 78-124) -/

/-- The CustomerAgent's record-store collaborators; the payloads stand for
the dictionaries the database module returns. -/
structure CustomerEnv where
  fetchProfile : List Char → List Char
  fetchTickets : List Char → List Char

/-- The two shapes CustomerAgent.process_query returns: the error
dictionary, or the data dictionary whose profile and tickets keys are each
present only when fetched. -/
inductive CustomerResult
  | error (message : List Char)
  | query (name : List Char) (profile : Option (List Char))
      (tickets : Option (List Char))
  deriving DecidableEq

def profileFacetWords : List (List Char) :=
  [lts "profile", lts "customer info", lts "account", lts "details"]

def ticketFacetWords : List (List Char) :=
  [lts "ticket", lts "support", lts "issue", lts "complaint", lts "history"]

def customerErrorMessage : List Char :=
  lts "Could not identify customer name in question. Please specify the customer name."

/-- CustomerAgent.process_query: extraction first, then the two facet
gates, with both facets fetched when neither gate fires. -/
def customerProcessQuery (env : CustomerEnv) (question : List Char) :
    CustomerResult :=
  match extractCustomerName question with
  | none => .error customerErrorMessage
  | some name =>
    let ql := pyLower question
    let wantProfile := profileFacetWords.any (fun w => containsSub w ql)
    let wantTickets := ticketFacetWords.any (fun w => containsSub w ql)
    if wantProfile || wantTickets then
      .query name
        (if wantProfile then some (env.fetchProfile name) else none)
        (if wantTickets then some (env.fetchTickets name) else none)
    else
      .query name (some (env.fetchProfile name)) (some (env.fetchTickets name))

/-! ## MultiAgentOrchestrator.route_query (agents.py lines 163-188) -/

def routePolicyKeywords : List (List Char) :=
  [lts "policy", lts "refund", lts "warranty", lts "shipping",
   lts "privacy", lts "terms", lts "guarantee", lts "coverage"]

def routeCustomerKeywords : List (List Char) :=
  [lts "customer", lts "profile", lts "support ticket", lts "issue",
   lts "complaint", lts "order", lts "account"]

inductive AgentTag
  | policy
  | customer
  deriving DecidableEq

/-- The routing decision of route_query on the lower-cased question. -/
def routeAgent (question : List Char) : AgentTag :=
  let ql := pyLower question
  let isPolicyQ := routePolicyKeywords.any (fun kw => containsSub kw ql)
  let isCustomerQ := routeCustomerKeywords.any (fun kw => containsSub kw ql)
  if isPolicyQ && !isCustomerQ then .policy
  else if isCustomerQ then .customer
  else .policy

/-- The full dispatch: route_query invokes the selected agent's
process_query on the question. -/
inductive RoutedResult
  | policyRes (r : PolicyResult)
  | customerRes (r : CustomerResult)
  deriving DecidableEq

def routeQuery (penv : PolicyEnv) (cenv : CustomerEnv) (question : List Char) :
    RoutedResult :=
  match routeAgent question with
  | .policy => .policyRes (policyProcessQuery penv question)
  | .customer => .customerRes (customerProcessQuery cenv question)

/-! ## The SQLite store (db/database.py) -/

/-- A row of the customers table.  The table has no address column; the
chatbot nevertheless reads an address key, so that read always falls back
to its default. -/
structure Customer where
  id : Nat
  name : List Char
  email : List Char
  phone : List Char
  signupDate : List Char
  accountStatus : List Char
  accountType : List Char
  totalOrders : Nat
  lifetimeValue : ℚ
  deriving DecidableEq

/-- A row of the support_tickets table. -/
structure Ticket where
  id : Nat
  customerId : Nat
  title : List Char
  description : List Char
  status : List Char
  createdDate : List Char
  resolvedDate : Option (List Char)
  category : List Char
  priority : List Char
  deriving DecidableEq

structure DB where
  customers : List Customer
  tickets : List Ticket
  deriving DecidableEq

/-- The sqlite test LOWER(name) LIKE LOWER(percent-arg-percent):
case-insensitive substring match of the argument against the name. -/
def likeSub (needle hay : List Char) : Bool :=
  containsSub (pyLower needle) (pyLower hay)

/-- get_customer_profile's row lookup: the first customer whose name
contains the argument, case-insensitively; none models the error mapping
returned when no row matches.  The related-orders fetch of the function is
not modelled: no consumer at stake reads it. -/
def getCustomerProfileRow (db : DB) (nameArg : List Char) : Option Customer :=
  db.customers.find? (fun c => likeSub nameArg c.name)

/-- Byte-wise lexicographic order on text, as sqlite compares TEXT. -/
def lexLe : List Char → List Char → Bool
  | [], _ => true
  | _ :: _, [] => false
  | a :: as, b :: bs =>
    if a = b then lexLe as bs else decide (a.toNat < b.toNat)

def insertDescByCreated (t : Ticket) : List Ticket → List Ticket
  | [] => [t]
  | u :: us =>
    if lexLe u.createdDate t.createdDate then t :: u :: us
    else u :: insertDescByCreated t us

/-- ORDER BY created_date DESC. -/
def sortByCreatedDesc : List Ticket → List Ticket
  | [] => []
  | t :: ts => insertDescByCreated t (sortByCreatedDesc ts)

/-- The four-key mapping get_customer_support_tickets returns when the
customer resolves. -/
structure TicketsDict where
  customerName : List Char
  customerId : Nat
  totalTickets : Nat
  tickets : List Ticket
  deriving DecidableEq

/-- get_customer_support_tickets: either the four-key mapping or the
one-key error mapping when no customer name matches the argument. -/
inductive TicketsFetch
  | ok (d : TicketsDict)
  | err (nameArg : List Char)
  deriving DecidableEq

def getCustomerSupportTickets (db : DB) (nameArg : List Char) : TicketsFetch :=
  match db.customers.find? (fun c => likeSub nameArg c.name) with
  | none => .err nameArg
  | some c =>
    let ts := sortByCreatedDesc (db.tickets.filter (fun t => t.customerId == c.id))
    .ok { customerName := nameArg, customerId := c.id,
          totalTickets := ts.length, tickets := ts }

/-- search_customers: substring match on name, email or phone.  The name
test is wrapped in LOWER on both sides; sqlite LIKE is itself
case-insensitive for ASCII, so all three tests are case-insensitive.  An
empty query matches every customer. -/
def searchCustomers (db : DB) (q : List Char) : List Customer :=
  db.customers.filter
    (fun c => likeSub q c.name || likeSub q c.email || likeSub q c.phone)

/-- query_database's outcome: rows, or the error mapping. -/
inductive QueryOutcome
  | rows (rs : List (List (List Char)))
  | err (message : List Char)
  deriving DecidableEq

/-- query_database (database.py lines 223-241).  Executing SQL against the
store is the collaborator: it yields rows or raises, modelled as Except.
The guard strips the query, upper-cases it and requires the SELECT prefix
before anything is executed; every exception of the allowed path becomes
the error mapping. -/
def queryDatabase
    (exec : List Char → Except (List Char) (List (List (List Char))))
    (sql : List Char) : QueryOutcome :=
  if !(lts "SELECT").isPrefixOf (pyUpper (pyStrip sql)) then
    .err (lts "Only SELECT queries are allowed")
  else
    match exec sql with
    | .ok rs => .rows rs
    | .error e => .err e

/-! ## search_documents (rag/rag_pipeline.py lines 82-121) -/

/-- The metadata fields of a chunk that the chatbot reads, each optional
because it is read with a dictionary-get defaulting to the word document. -/
structure ChunkMeta where
  filename : Option (List Char)
  mtype : Option (List Char)
  deriving DecidableEq

/-- One hit as the Chroma collaborator reports it: content, a distance, and
metadata, already zipped and best-first. -/
structure RawHit where
  content : List Char
  distance : ℚ
  metadata : ChunkMeta
  deriving DecidableEq

/-- One formatted hit of search_documents. -/
structure SearchHit where
  content : List Char
  similarity : ℚ
  metadata : ChunkMeta
  deriving DecidableEq

/-- search_documents's formatting loop: similarity is one minus the
reported distance, order preserved. -/
def searchDocuments (raw : List RawHit) : List SearchHit :=
  raw.map (fun h =>
    { content := h.content, similarity := 1 - h.distance, metadata := h.metadata })

/-! ## generate_answer (chatbot.py lines 39-243) -/

/-- The chatbot's collaborators: the customer database, the Chroma search
behind search_documents, and the language model (system message, human
message to response text). -/
structure ChatEnv where
  db : DB
  rawSearch : List Char → Nat → List RawHit
  llm : List Char → List Char → List Char

def chatCustomerKeywords : List (List Char) :=
  [lts "customer", lts "profile", lts "order", lts "ticket", lts "support",
   lts "history", lts "past", lts "recent", lts "account", lts "contact",
   lts "invoice", lts "purchase", lts "transaction"]

def chatPolicyKeywords : List (List Char) :=
  [lts "policy", lts "faq", lts "return", lts "refund", lts "shipping",
   lts "payment", lts "exchange", lts "warranty", lts "guarantee",
   lts "rules", lts "guidelines", lts "terms", lts "condition",
   lts "process", lts "procedure", lts "how", lts "what is", lts "explain"]

/-- The customer gate before the default: a known customer name appears in
the lower-cased query, or a customer keyword does. -/
def chatIsCustomerQuery (db : DB) (ql : List Char) : Bool :=
  (db.customers.map (fun c => pyLower c.name)).any (fun n => containsSub n ql)
    || chatCustomerKeywords.any (fun kw => containsSub kw ql)

def chatIsPolicyQuery (ql : List Char) : Bool :=
  chatPolicyKeywords.any (fun kw => containsSub kw ql)

/-- The customer gate after the default rule: when neither gate fires the
customer gate is forced on. -/
def chatGateCustomer (db : DB) (ql : List Char) : Bool :=
  chatIsCustomerQuery db ql || !(chatIsPolicyQuery ql)

/-- The customers whose (nonempty) lower-cased name occurs in the
lower-cased query. -/
def mentionedCustomers (db : DB) (ql : List Char) : List Customer :=
  db.customers.filter
    (fun c => !(pyLower c.name).isEmpty && containsSub (pyLower c.name) ql)

/-- Which customers the aggregator settles on: the first mentioned name
whose search is non-empty, else (no mention) a search with the raw query;
when every per-name search is empty the loop leaves the last, empty
result. -/
def chatCustomerResults (db : DB) (query ql : List Char) : List Customer :=
  let mentioned := mentionedCustomers db ql
  if mentioned.isEmpty then searchCustomers db query
  else
    match (mentioned.map (fun c => searchCustomers db c.name)).find?
        (fun rs => !rs.isEmpty) with
    | some rs => rs
    | none => []

def natStr (n : Nat) : List Char := Nat.toDigits 10 n

def intStr (i : ℤ) : List Char :=
  if i < 0 then '-' :: natStr i.natAbs else natStr i.natAbs

/-- Python percent formatting with zero decimals, as the source list
relevance field uses it: the value times 100 rounded to the nearest integer
(ties to even) followed by a percent sign. -/
def pctStr (q : ℚ) : List Char :=
  let scaled : ℚ := q * 100
  let fl : ℤ := Int.floor scaled
  let frac : ℚ := scaled - fl
  let r : ℤ :=
    if frac < 1/2 then fl
    else if 1/2 < frac then fl + 1
    else if fl % 2 = 0 then fl else fl + 1
  intStr r ++ lts "%"

/-- A customer profile field as the chatbot reads it: the row's value, or
the default when the lookup returned the error mapping. -/
def profileField (row : Option Customer) (f : Customer → List Char) : List Char :=
  match row with
  | some c => f c
  | none => lts "N/A"

/-- The number of keys of the mapping get_customer_support_tickets returns:
four, or one for the error shape.  Only this number reaches the rendered
text, through Python len applied to the mapping. -/
def ticketsDictKeyCount : TicketsFetch → Nat
  | .ok _ => 4
  | .err _ => 1

/-- One per-customer context block of the aggregator.  The chatbot passes
the integer id of the customer into the name-keyed lookups (the f-string
pattern stringifies it), so the profile row resolves only if the decimal id
occurs in some customer name; the tickets mapping is truthy in both shapes,
so the header line with Python len of the mapping is appended, after which
slicing the mapping raises TypeError, the bare except swallows it, and no
per-ticket line is appended. -/
def customerBlock (db : DB) (c : Customer) : List Char :=
  let idArg := natStr c.id
  let row := getCustomerProfileRow db idArg
  let profileText :=
    lts "\nCustomer: " ++ c.name
      ++ lts "\nEmail: " ++ profileField row (fun x => x.email)
      ++ lts "\nPhone: " ++ profileField row (fun x => x.phone)
      ++ lts "\nAddress: " ++ lts "N/A"
      ++ lts "\nAccount Status: " ++ profileField row (fun x => x.accountStatus)
  let tres := getCustomerSupportTickets db idArg
  let ticketText :=
    lts "\n\nSupport Tickets (" ++ natStr (ticketsDictKeyCount tres) ++ lts "):\n"
  profileText ++ ticketText ++ lts "\n"

/-- The whole customer context text: header plus one block per customer. -/
def customerContext (db : DB) (results : List Customer) : List Char :=
  lts "=== CUSTOMER DATABASE RESULTS ===\n"
    ++ (results.map (customerBlock db)).flatten

/-- The structured source list entry: id, filename, relevance, type. -/
structure SourceEntry where
  sid : Nat
  filename : List Char
  relevance : List Char
  stype : List Char
  deriving DecidableEq

def endsWithL (suffix s : List Char) : Bool := suffix.reverse.isPrefixOf s.reverse

/-- Python rsplit at the last period, first component; applied only when
one of the three suffixes matched, so a period exists. -/
def beforeLastDot (s : List Char) : List Char :=
  (((s.reverse).dropWhile (fun c => c != '.')).drop 1).reverse

def trimDocName (f : List Char) : List Char :=
  if endsWithL (lts ".txt") f || endsWithL (lts ".pdf") f
      || endsWithL (lts ".md") f then
    beforeLastDot f
  else f

def policyHitBlock (counter : Nat) (h : SearchHit) : List Char :=
  lts "[Source " ++ natStr counter ++ lts "]\n" ++ h.content

def policyHitSource (counter : Nat) (h : SearchHit) : SourceEntry :=
  { sid := counter,
    filename := trimDocName (h.metadata.filename.getD (lts "document")),
    relevance := pctStr h.similarity,
    stype := h.metadata.mtype.getD (lts "document") }

/-- The customer half of the gathered context: at most one block, labelled
Source 1 because it always comes first. -/
def customerContextPart (env : ChatEnv) (query : List Char) :
    List (List Char) × List SourceEntry :=
  if chatGateCustomer env.db (pyLower query) then
    let results := chatCustomerResults env.db query (pyLower query)
    if results.isEmpty then ([], [])
    else
      ([lts "[Source 1]\n" ++ pyStrip (customerContext env.db results)],
       [{ sid := 1, filename := lts "customer_database",
          relevance := lts "100%", stype := lts "customer_data" }])
  else ([], [])

/-- The policy half: one block and one source entry per formatted hit,
numbered from the running counter. -/
def policyContextPart (env : ChatEnv) (query : List Char)
    (nResults startCounter : Nat) : List (List Char) × List SourceEntry :=
  if chatIsPolicyQuery (pyLower query) then
    let hits := searchDocuments (env.rawSearch query nResults)
    (hits.enum.map (fun p => policyHitBlock (startCounter + p.1) p.2),
     hits.enum.map (fun p => policyHitSource (startCounter + p.1) p.2))
  else ([], [])

/-- Everything generate_answer retrieves before deciding whether to invoke
the model: context blocks and source entries, customer first. -/
def gatherContext (env : ChatEnv) (query : List Char) (nResults : Nat) :
    List (List Char) × List SourceEntry :=
  let cp := customerContextPart env query
  let pp := policyContextPart env query nResults (cp.1.length + 1)
  (cp.1 ++ pp.1, cp.2 ++ pp.2)

/-! ### Citation-marker removal (chatbot.py lines 233-236) -/

def isCiteOpen (c : Char) : Bool := c = '[' || c = '('

def isCiteClose (c : Char) : Bool := c = ']' || c = ')'

/-- Whether the citation pattern matches at the start of the text: optional
whitespace, an opening bracket or parenthesis, the literal word Source with
a capital S, at least one whitespace character, then everything up to the
first closing bracket or parenthesis.  Returns the text after the match. -/
def matchCiteAt (s : List Char) : Option (List Char) :=
  match s.dropWhile isPySpace with
  | [] => none
  | c :: t =>
    if isCiteOpen c then
      match t with
      | 'S' :: 'o' :: 'u' :: 'r' :: 'c' :: 'e' :: d :: t2 =>
        if isPySpace d then
          match (d :: t2).dropWhile (fun x => !(isCiteClose x)) with
          | [] => none
          | _ :: rest => some rest
        else none
      | _ => none
    else none

/-- One left-to-right pass replacing each non-overlapping match with
nothing, as re.sub does; the fuel starts at the length of the text and a
match always consumes at least one character. -/
def removeCitationsAux : Nat → List Char → List Char
  | 0, s => s
  | _ + 1, [] => []
  | fuel + 1, c :: rest =>
    match matchCiteAt (c :: rest) with
    | some rest2 => removeCitationsAux fuel rest2
    | none => c :: removeCitationsAux fuel rest

def removeCitations (s : List Char) : List Char := removeCitationsAux s.length s

/-- The post-processing of the raw response: citation markers removed, then
whitespace trimmed. -/
def postprocessAnswer (raw : List Char) : List Char := pyStrip (removeCitations raw)

/-! ### The answer record and the full pipeline -/

structure GenResult where
  answer : List Char
  sources : List SourceEntry
  hasContext : Bool
  query : List Char
  deriving DecidableEq

def noContextMessage : List Char :=
  lts "I couldn't find relevant information. Please provide more specific details or check your uploaded documents."

def systemPromptText : List Char :=
  lts "You are a knowledgeable multi-agent customer support assistant for TCS.\n    You have access to:\n    1. Customer database (profiles, orders, support tickets)\n    2. Company policies, FAQs, and guidelines\n    \n    Your role is to answer questions using the provided context from both sources.\n    Always be helpful, accurate, and professional.\n    If information comes from customer data, acknowledge it clearly.\n    If information comes from policies, cite the policy source when relevant."

def userPromptText (context query : List Char) : List Char :=
  lts "Available Information:\n\n" ++ context
    ++ lts "\n\n---\n\nCustomer Question: " ++ query
    ++ lts "\n\nPlease provide a comprehensive answer using any relevant information from the sources above."

/-- generate_answer: gather context from both gated sources; with nothing
retrieved, the fixed fallback result; otherwise one LLM call on the fixed
two-message prompt, post-processed. -/
def generateAnswer (env : ChatEnv) (query : List Char) (nResults : Nat) :
    GenResult :=
  let parts := gatherContext env query nResults
  if parts.1.isEmpty then
    { answer := noContextMessage, sources := [], hasContext := false,
      query := query }
  else
    let context := joinWith (lts "\n\n") parts.1
    let raw := env.llm systemPromptText (userPromptText context query)
    { answer := postprocessAnswer raw, sources := parts.2, hasContext := true,
      query := query }

/-! ## Helper lemmas -/

lemma lengthDropWhileLe (p : Char → Bool) (l : List Char) :
    (l.dropWhile p).length ≤ l.length := by
  induction l with
  | nil => simp [List.dropWhile]
  | cons a as ih =>
    rw [List.dropWhile_cons]
    split
    · exact Nat.le_trans ih (Nat.le_succ _)
    · exact Nat.le_refl _

lemma dropWhileAppendAll {p : Char → Bool} {w : List Char} (l : List Char)
    (hw : ∀ x ∈ w, p x = true) : (w ++ l).dropWhile p = l.dropWhile p := by
  induction w with
  | nil => rfl
  | cons a as ih =>
    have ha : p a = true := hw a (List.mem_cons_self a as)
    rw [List.cons_append, List.dropWhile_cons, if_pos ha]
    exact ih (fun x hx => hw x (List.mem_cons_of_mem a hx))

lemma dropWhileConsNeg {p : Char → Bool} {c : Char} (t : List Char)
    (h : p c = false) : (c :: t).dropWhile p = c :: t := by
  rw [List.dropWhile_cons, if_neg (by simp [h])]

/-! ## Claims about the entity extractor -/

/-- C1 (counterexample): the question `for 'Alice Smith' profile` contains
the quoted substring `Alice Smith`, yet the extractor returns `Alice`: the
keyword-adjacent tier runs first and wins, so the quoted-span tier does not
always win when a quote is present. -/
theorem extract_name_quote_loses :
    quotedTier (lts "for 'Alice Smith' profile") = some (lts "Alice Smith")
      ∧ extractCustomerName (lts "for 'Alice Smith' profile") = some (lts "Alice")
      ∧ extractCustomerName (lts "for 'Alice Smith' profile")
          ≠ quotedTier (lts "for 'Alice Smith' profile") := by
  decide

/-- C1 (amended): the tiers are applied in the order keyword-adjacent,
quoted, capitalized; whenever the keyword-adjacent tier finds nothing and
the text contains a quoted substring, the extractor returns the contents of
the first quoted span unmodified, and the capitalization tier is never
consulted. -/
theorem extract_name_quoted_tier_after_keyword_tier (q n : List Char)
    (hk : keywordTier (pySplit q) = none) (hq : quotedTier q = some n) :
    extractCustomerName q = some n := by
  unfold extractCustomerName
  rw [hk, hq]

/-- C1 witness: a question with no extraction keyword and the quoted name
`Bob Lee`. -/
theorem extract_name_quoted_tier_after_keyword_tier_witness :
    extractCustomerName (lts "'Bob Lee' data") = some (lts "Bob Lee") :=
  extract_name_quoted_tier_after_keyword_tier (lts "'Bob Lee' data")
    (lts "Bob Lee") (by decide) (by decide)

/-! ## Claim about the orchestrator's routing -/

/-- C2: route_query dispatches to exactly one agent; a policy keyword with
no customer keyword selects the Policy Agent, any customer keyword selects
the Customer Agent (also when policy keywords occur), and with neither the
default is the Policy Agent; the dispatch invokes that agent's
process_query. -/
theorem route_query_keyword_rule (q : List Char) :
    (routeAgent q = AgentTag.policy ∨ routeAgent q = AgentTag.customer)
    ∧ ((∃ kw ∈ routePolicyKeywords, containsSub kw (pyLower q) = true)
        ∧ (∀ kw ∈ routeCustomerKeywords, containsSub kw (pyLower q) = false)
        → routeAgent q = AgentTag.policy)
    ∧ ((∃ kw ∈ routeCustomerKeywords, containsSub kw (pyLower q) = true)
        → routeAgent q = AgentTag.customer)
    ∧ ((∀ kw ∈ routePolicyKeywords, containsSub kw (pyLower q) = false)
        ∧ (∀ kw ∈ routeCustomerKeywords, containsSub kw (pyLower q) = false)
        → routeAgent q = AgentTag.policy)
    ∧ (∀ penv cenv, routeQuery penv cenv q =
        match routeAgent q with
        | AgentTag.policy => RoutedResult.policyRes (policyProcessQuery penv q)
        | AgentTag.customer =>
            RoutedResult.customerRes (customerProcessQuery cenv q)) := by
  have hchar : ∀ (l : List (List Char)),
      l.any (fun kw => containsSub kw (pyLower q)) = false
        ↔ ∀ kw ∈ l, containsSub kw (pyLower q) = false := by
    intro l
    rw [List.any_eq_false]
    simp
  refine ⟨?_, ?_, ?_, ?_, fun _ _ => rfl⟩
  · cases h1 : routePolicyKeywords.any (fun kw => containsSub kw (pyLower q)) <;>
      cases h2 : routeCustomerKeywords.any (fun kw => containsSub kw (pyLower q)) <;>
      simp [routeAgent, h1, h2]
  · rintro ⟨hex, hall⟩
    have h1 : routePolicyKeywords.any (fun kw => containsSub kw (pyLower q)) = true :=
      List.any_eq_true.mpr hex
    have h2 : routeCustomerKeywords.any (fun kw => containsSub kw (pyLower q)) = false :=
      (hchar _).mpr hall
    simp [routeAgent, h1, h2]
  · intro hex
    have h2 : routeCustomerKeywords.any (fun kw => containsSub kw (pyLower q)) = true :=
      List.any_eq_true.mpr hex
    simp [routeAgent, h2]
  · rintro ⟨hp, hc⟩
    have h1 : routePolicyKeywords.any (fun kw => containsSub kw (pyLower q)) = false :=
      (hchar _).mpr hp
    have h2 : routeCustomerKeywords.any (fun kw => containsSub kw (pyLower q)) = false :=
      (hchar _).mpr hc
    simp [routeAgent, h1, h2]

/-- C2 witness: the question `refund timeline` has a policy keyword and no
customer keyword, so the Policy Agent is selected. -/
theorem route_query_keyword_rule_witness :
    routeAgent (lts "refund timeline") = AgentTag.policy :=
  (route_query_keyword_rule (lts "refund timeline")).2.1
    (by exact ⟨⟨lts "refund", by decide, by decide⟩, by decide⟩)

/-! ## Claims about the CustomerAgent -/

/-- A concrete CustomerEnv for witnesses: payloads tag which fetch ran. -/
def custEnv0 : CustomerEnv :=
  { fetchProfile := fun n => 'P' :: n, fetchTickets := fun n => 'T' :: n }

/-- C8: when the extractor finds no customer name, process_query returns
the error result with the could-not-identify message, for every record
store alike, so no store lookup can have been consulted. -/
theorem customer_agent_extraction_failure (q : List Char)
    (h : extractCustomerName q = none) :
    ∀ env : CustomerEnv,
      customerProcessQuery env q = CustomerResult.error customerErrorMessage := by
  intro env
  unfold customerProcessQuery
  rw [h]

/-- C8 witness: `hello there` yields no name in any tier. -/
theorem customer_agent_extraction_failure_witness :
    customerProcessQuery custEnv0 (lts "hello there")
      = CustomerResult.error customerErrorMessage :=
  customer_agent_extraction_failure (lts "hello there") (by decide) custEnv0

/-! ## Claim about query_database -/

/-- C10: query_database never raises: a query not starting with SELECT
(after stripping and upper-casing) yields the error mapping no matter what
the execution collaborator does, and an exception of an allowed query is
returned as the error mapping; allowed queries that succeed yield rows. -/
theorem query_database_select_guard
    (exec : List Char → Except (List Char) (List (List (List Char))))
    (sql : List Char) :
    ((lts "SELECT").isPrefixOf (pyUpper (pyStrip sql)) = false →
      queryDatabase exec sql
          = QueryOutcome.err (lts "Only SELECT queries are allowed")
        ∧ ∀ exec', queryDatabase exec' sql = queryDatabase exec sql)
    ∧ (∀ e, (lts "SELECT").isPrefixOf (pyUpper (pyStrip sql)) = true →
        exec sql = Except.error e → queryDatabase exec sql = QueryOutcome.err e)
    ∧ (∀ rs, (lts "SELECT").isPrefixOf (pyUpper (pyStrip sql)) = true →
        exec sql = Except.ok rs → queryDatabase exec sql = QueryOutcome.rows rs) := by
  refine ⟨fun h => ⟨?_, fun exec' => ?_⟩, fun e h1 h2 => ?_, fun rs h1 h2 => ?_⟩ <;>
    simp [queryDatabase, *]

/-- C10 witness: a DROP statement is refused even when the collaborator
would raise. -/
theorem query_database_select_guard_witness :
    queryDatabase (fun _ => Except.error (lts "boom")) (lts "DROP TABLE customers")
      = QueryOutcome.err (lts "Only SELECT queries are allowed") :=
  ((query_database_select_guard (fun _ => Except.error (lts "boom"))
      (lts "DROP TABLE customers")).1 (by decide)).1

/-! ## Claim about the PolicyAgent -/

/-- A concrete PolicyEnv for witnesses: the rag answer records the top_k it
was asked for. -/
def polEnv0 : PolicyEnv :=
  { getPolicySummary := fun p => lts "TEXT " ++ p,
    queryPolicyDocuments := fun q k =>
      { question := q, answer := natStr k, sources := [] } }

/-- C3: process_query returns a policy summary iff some trigger keyword is
a case-insensitive substring of the question; the first match in the fixed
mapping order decides the policy, whose displayed name is the identifier
with underscores as spaces, title-cased, and on that path the result does
not depend on the similarity-search collaborator; with no trigger the
result is the top-3 similarity query. -/
theorem policy_agent_trigger_rule (env : PolicyEnv) (q : List Char) :
    ((∃ kv ∈ policyTriggers, containsSub (pyLower kv.1) (pyLower q) = true)
        ↔ ∃ p c, policyProcessQuery env q = PolicyResult.summary p c)
    ∧ (∀ kv, policyTriggers.find?
          (fun kv => containsSub (pyLower kv.1) (pyLower q)) = some kv →
        policyProcessQuery env q
            = PolicyResult.summary (pyTitle (underscoreToSpace kv.2))
              (env.getPolicySummary kv.2)
          ∧ ∀ ragF,
            policyProcessQuery { env with queryPolicyDocuments := ragF } q
              = policyProcessQuery env q)
    ∧ (policyTriggers.find?
          (fun kv => containsSub (pyLower kv.1) (pyLower q)) = none →
        policyProcessQuery env q
          = PolicyResult.ragQuery (env.queryPolicyDocuments q 3).question
              (env.queryPolicyDocuments q 3).answer
              (env.queryPolicyDocuments q 3).sources) := by
  cases hf : policyTriggers.find?
      (fun kv => containsSub (pyLower kv.1) (pyLower q)) with
  | none =>
    have hno : ∀ kv ∈ policyTriggers, containsSub (pyLower kv.1) (pyLower q) = false := by
      have := List.find?_eq_none.mp hf
      intro kv hkv
      simpa using this kv hkv
    refine ⟨⟨?_, ?_⟩, ?_, ?_⟩
    · rintro ⟨kv, hmem, hsub⟩
      rw [hno kv hmem] at hsub
      exact absurd hsub (by simp)
    · rintro ⟨p, c, hpc⟩
      simp [policyProcessQuery, hf] at hpc
    · intro kv hkv
      exact absurd hkv (by simp)
    · intro _
      simp [policyProcessQuery, hf]
  | some kv0 =>
    refine ⟨⟨?_, ?_⟩, ?_, ?_⟩
    · intro _
      exact ⟨pyTitle (underscoreToSpace kv0.2), env.getPolicySummary kv0.2,
        by simp [policyProcessQuery, hf]⟩
    · intro _
      have hp :=
        List.find?_some
          (p := fun (kv : List Char × List Char) =>
            containsSub (pyLower kv.1) (pyLower q)) hf
      exact ⟨kv0, List.mem_of_find?_eq_some hf, hp⟩
    · intro kv hkv
      injection hkv with hkv
      subst hkv
      constructor
      · simp [policyProcessQuery, hf]
      · intro ragF
        simp [policyProcessQuery, hf]
    · intro hnone
      exact absurd hnone (by simp)

/-- C3 witness: `What is your return policy?` contains no trigger keyword
(return is not refund), so the agent issues the top-3 similarity query. -/
theorem policy_agent_trigger_rule_witness :
    policyProcessQuery polEnv0 (lts "What is your return policy?")
      = PolicyResult.ragQuery (lts "What is your return policy?") (lts "3") [] := by
  have h := (policy_agent_trigger_rule polEnv0
      (lts "What is your return policy?")).2.2 (by decide)
  rw [h]
  decide

/-- C7: when a name is extracted, the profile facet is fetched exactly when
a profile-group keyword occurs in the lower-cased question or no keyword of
either group does, and likewise for the tickets facet with the ticket
group; the result carries exactly the fetched facets. -/
theorem customer_agent_facet_selection (env : CustomerEnv) (q name : List Char)
    (h : extractCustomerName q = some name) :
    customerProcessQuery env q =
      CustomerResult.query name
        (if (∃ w ∈ profileFacetWords, containsSub w (pyLower q) = true)
            ∨ ((∀ w ∈ profileFacetWords, containsSub w (pyLower q) = false)
                ∧ ∀ w ∈ ticketFacetWords, containsSub w (pyLower q) = false)
          then some (env.fetchProfile name) else none)
        (if (∃ w ∈ ticketFacetWords, containsSub w (pyLower q) = true)
            ∨ ((∀ w ∈ profileFacetWords, containsSub w (pyLower q) = false)
                ∧ ∀ w ∈ ticketFacetWords, containsSub w (pyLower q) = false)
          then some (env.fetchTickets name) else none) := by
  have hchar : ∀ (l : List (List Char)),
      l.any (fun w => containsSub w (pyLower q)) = false
        ↔ ∀ w ∈ l, containsSub w (pyLower q) = false := by
    intro l
    rw [List.any_eq_false]
    simp
  unfold customerProcessQuery
  rw [h]
  cases hP : profileFacetWords.any (fun w => containsSub w (pyLower q)) <;>
    cases hT : ticketFacetWords.any (fun w => containsSub w (pyLower q))
  · have hPf := (hchar _).mp hP
    have hTf := (hchar _).mp hT
    have c1 : (∃ w ∈ profileFacetWords, containsSub w (pyLower q) = true)
        ∨ ((∀ w ∈ profileFacetWords, containsSub w (pyLower q) = false)
            ∧ ∀ w ∈ ticketFacetWords, containsSub w (pyLower q) = false) :=
      Or.inr ⟨hPf, hTf⟩
    have c2 : (∃ w ∈ ticketFacetWords, containsSub w (pyLower q) = true)
        ∨ ((∀ w ∈ profileFacetWords, containsSub w (pyLower q) = false)
            ∧ ∀ w ∈ ticketFacetWords, containsSub w (pyLower q) = false) :=
      Or.inr ⟨hPf, hTf⟩
    simp [hP, hT, c1, c2]
  · have hPf := (hchar _).mp hP
    have hTt := List.any_eq_true.mp hT
    have c1 : ¬ ((∃ w ∈ profileFacetWords, containsSub w (pyLower q) = true)
        ∨ ((∀ w ∈ profileFacetWords, containsSub w (pyLower q) = false)
            ∧ ∀ w ∈ ticketFacetWords, containsSub w (pyLower q) = false)) := by
      rintro (⟨w, hw, hsub⟩ | ⟨_, hall⟩)
      · rw [hPf w hw] at hsub
        exact absurd hsub (by simp)
      · obtain ⟨w, hw, hsub⟩ := hTt
        rw [hall w hw] at hsub
        exact absurd hsub (by simp)
    have c2 : (∃ w ∈ ticketFacetWords, containsSub w (pyLower q) = true)
        ∨ ((∀ w ∈ profileFacetWords, containsSub w (pyLower q) = false)
            ∧ ∀ w ∈ ticketFacetWords, containsSub w (pyLower q) = false) :=
      Or.inl hTt
    simp [hP, hT, c1, c2]
  · have hPt := List.any_eq_true.mp hP
    have hTf := (hchar _).mp hT
    have c1 : (∃ w ∈ profileFacetWords, containsSub w (pyLower q) = true)
        ∨ ((∀ w ∈ profileFacetWords, containsSub w (pyLower q) = false)
            ∧ ∀ w ∈ ticketFacetWords, containsSub w (pyLower q) = false) :=
      Or.inl hPt
    have c2 : ¬ ((∃ w ∈ ticketFacetWords, containsSub w (pyLower q) = true)
        ∨ ((∀ w ∈ profileFacetWords, containsSub w (pyLower q) = false)
            ∧ ∀ w ∈ ticketFacetWords, containsSub w (pyLower q) = false)) := by
      rintro (⟨w, hw, hsub⟩ | ⟨hall, _⟩)
      · rw [hTf w hw] at hsub
        exact absurd hsub (by simp)
      · obtain ⟨w, hw, hsub⟩ := hPt
        rw [hall w hw] at hsub
        exact absurd hsub (by simp)
    simp [hP, hT, c1, c2]
  · have hPt := List.any_eq_true.mp hP
    have hTt := List.any_eq_true.mp hT
    have c1 : (∃ w ∈ profileFacetWords, containsSub w (pyLower q) = true)
        ∨ ((∀ w ∈ profileFacetWords, containsSub w (pyLower q) = false)
            ∧ ∀ w ∈ ticketFacetWords, containsSub w (pyLower q) = false) :=
      Or.inl hPt
    have c2 : (∃ w ∈ ticketFacetWords, containsSub w (pyLower q) = true)
        ∨ ((∀ w ∈ profileFacetWords, containsSub w (pyLower q) = false)
            ∧ ∀ w ∈ ticketFacetWords, containsSub w (pyLower q) = false) :=
      Or.inl hTt
    simp [hP, hT, c1, c2]

/-- C7 witness: the scenario question fetches the profile facet only. -/
theorem customer_agent_facet_selection_witness :
    customerProcessQuery custEnv0 (lts "customer Ema Johnson's profile")
      = CustomerResult.query (lts "Ema") (some ('P' :: lts "Ema")) none := by
  have h := customer_agent_facet_selection custEnv0
      (lts "customer Ema Johnson's profile") (lts "Ema") (by decide)
  rw [h]
  decide

/-! ## Claim about search_documents -/

def rawMeta0 : ChunkMeta := { filename := none, mtype := none }

/-- A hit whose cosine distance is three halves, as the collaborator can
report for anti-correlated embeddings. -/
def rawHit32 : RawHit := { content := lts "d", distance := 3/2, metadata := rawMeta0 }

def searchHitCex : SearchHit :=
  { content := lts "d", similarity := 1 - 3/2, metadata := rawMeta0 }

/-- C9 (counterexample): a collaborator distance of three halves yields a
similarity below zero, so not every returned similarity lies in the unit
interval. -/
theorem search_documents_similarity_range_cex :
    ¬ (∀ h ∈ searchDocuments [rawHit32],
        0 ≤ h.similarity ∧ h.similarity ≤ 1) := by
  intro hall
  have hmem : searchHitCex ∈ searchDocuments [rawHit32] := by
    simp [searchDocuments, rawHit32, searchHitCex]
  have h := (hall searchHitCex hmem).1
  rw [show searchHitCex.similarity = 1 - 3/2 from rfl] at h
  norm_num at h

/-- C9 (amended): each hit's similarity is one minus the collaborator's
distance, in the collaborator's order (so non-decreasing distances give
non-increasing similarities), and the similarity lies in the unit interval
exactly when the reported distance does; a cosine distance above one drives
it negative. -/
theorem search_documents_similarity_props (raw : List RawHit) :
    ((searchDocuments raw).map (fun h => h.similarity)
        = raw.map (fun h => 1 - h.distance))
    ∧ ((searchDocuments raw).map (fun h => h.content)
        = raw.map (fun h => h.content))
    ∧ ((raw.map (fun h => h.distance)).Sorted (· ≤ ·) →
        ((searchDocuments raw).map (fun h => h.similarity)).Sorted (· ≥ ·))
    ∧ ((∀ h ∈ raw, 0 ≤ h.distance ∧ h.distance ≤ 1) →
        ∀ h ∈ searchDocuments raw, 0 ≤ h.similarity ∧ h.similarity ≤ 1) := by
  refine ⟨?_, ?_, ?_, ?_⟩
  · simp [searchDocuments]
  · simp [searchDocuments]
  · intro hs
    have hrw : (searchDocuments raw).map (fun h => h.similarity)
        = (raw.map (fun h => h.distance)).map (fun x => 1 - x) := by
      simp [searchDocuments]
    rw [hrw]
    refine List.pairwise_map.mpr (hs.imp ?_)
    intro a b hab
    simp only [ge_iff_le]
    linarith
  · intro hb h hmem
    simp only [searchDocuments, List.mem_map] at hmem
    obtain ⟨r, hr, rfl⟩ := hmem
    have h2 := hb r hr
    refine ⟨?_, ?_⟩
    · show (0 : ℚ) ≤ 1 - r.distance
      linarith [h2.2]
    · show (1 : ℚ) - r.distance ≤ 1
      linarith [h2.1]

/-- C9 witness: distances zero and one half give similarities one and one
half, sorted non-increasing and inside the unit interval. -/
theorem search_documents_similarity_props_witness :
    (((searchDocuments
          [{ content := lts "a", distance := 0, metadata := rawMeta0 },
           { content := lts "b", distance := 1/2, metadata := rawMeta0 }]).map
        (fun h => h.similarity)).Sorted (· ≥ ·))
    ∧ ∀ h ∈ searchDocuments
          [{ content := lts "a", distance := 0, metadata := rawMeta0 },
           { content := lts "b", distance := 1/2, metadata := rawMeta0 }],
        0 ≤ h.similarity ∧ h.similarity ≤ 1 := by
  constructor
  · exact (search_documents_similarity_props _).2.2.1 (by
      norm_num [List.Sorted, List.pairwise_cons])
  · exact (search_documents_similarity_props _).2.2.2 (by
      intro h hmem
      simp only [List.mem_cons, List.not_mem_nil, or_false] at hmem
      rcases hmem with rfl | rfl <;> refine ⟨?_, ?_⟩ <;> norm_num)

/-! ## Claim about the citation-marker removal -/

lemma matchCiteAt_some_length {s r : List Char} (h : matchCiteAt s = some r) :
    r.length < s.length := by
  unfold matchCiteAt at h
  split at h
  · exact absurd h (by simp)
  case _ c t heq1 =>
    have hle1 : (c :: t).length ≤ s.length := by
      rw [← heq1]
      exact lengthDropWhileLe _ _
    split at h
    · split at h
      case _ d t2 =>
        split at h
        · split at h
          · exact absurd h (by simp)
          case _ x rest heq3 =>
            injection h with h
            subst h
            have hle2 : (x :: rest).length ≤ (d :: t2).length := by
              rw [← heq3]
              exact lengthDropWhileLe _ _
            simp only [List.length_cons] at hle1 hle2 ⊢
            omega
        · exact absurd h (by simp)
      · exact absurd h (by simp)
    · exact absurd h (by simp)

lemma removeCitationsAux_congr :
    ∀ (f1 f2 : Nat) (s : List Char), s.length ≤ f1 → s.length ≤ f2 →
      removeCitationsAux f1 s = removeCitationsAux f2 s := by
  intro f1
  induction f1 with
  | zero =>
    intro f2 s h1 _
    have : s = [] := by
      cases s with
      | nil => rfl
      | cons c rest => simp at h1
    subst this
    cases f2 <;> rfl
  | succ k ih =>
    intro f2 s h1 h2
    cases s with
    | nil => cases f2 <;> rfl
    | cons c rest =>
      cases f2 with
      | zero => simp at h2
      | succ m =>
        have e1 : removeCitationsAux (k + 1) (c :: rest)
            = match matchCiteAt (c :: rest) with
              | some r2 => removeCitationsAux k r2
              | none => c :: removeCitationsAux k rest := rfl
        have e2 : removeCitationsAux (m + 1) (c :: rest)
            = match matchCiteAt (c :: rest) with
              | some r2 => removeCitationsAux m r2
              | none => c :: removeCitationsAux m rest := rfl
        rw [e1, e2]
        cases hm : matchCiteAt (c :: rest) with
        | some r2 =>
          have hlt := matchCiteAt_some_length hm
          simp only [List.length_cons] at hlt h1 h2
          exact ih m r2 (by omega) (by omega)
        | none =>
          simp only [List.length_cons] at h1 h2
          rw [ih m rest (by omega) (by omega)]

/-- Processing steps over a match at the front of the text. -/
lemma removeCitations_step {s r : List Char} (h : matchCiteAt s = some r) :
    removeCitations s = removeCitations r := by
  have hlt := matchCiteAt_some_length h
  cases s with
  | nil => exact absurd h (by simp [matchCiteAt])
  | cons c rest =>
    unfold removeCitations
    have e1 : removeCitationsAux (c :: rest).length (c :: rest)
        = match matchCiteAt (c :: rest) with
          | some r2 => removeCitationsAux rest.length r2
          | none => c :: removeCitationsAux rest.length rest := rfl
    rw [e1, h]
    apply removeCitationsAux_congr
    · simp only [List.length_cons] at hlt
      omega
    · exact Nat.le_refl _

lemma pySpaceNotCiteClose {x : Char} (h : isPySpace x = true) :
    isCiteClose x = false := by
  simp only [isPySpace, Bool.or_eq_true, decide_eq_true_eq] at h
  rcases h with ((((rfl | rfl) | rfl) | rfl) | rfl) | rfl <;> decide

lemma citeOpenNotPySpace {c : Char} (h : isCiteOpen c = true) :
    isPySpace c = false := by
  simp only [isCiteOpen, Bool.or_eq_true, decide_eq_true_eq] at h
  rcases h with rfl | rfl <;> decide

/-- The scanner matches exactly a whitespace run, an opener, the literal
word Source, a whitespace character, a closer-free body and a closer,
consuming all of it. -/
lemma matchCiteAt_marker
    (w : List Char) (hw : ∀ x ∈ w, isPySpace x = true)
    (c : Char) (hc : isCiteOpen c = true)
    (d : Char) (hd : isPySpace d = true)
    (body : List Char) (hb : ∀ x ∈ body, isCiteClose x = false)
    (e : Char) (he : isCiteClose e = true)
    (rest : List Char) :
    matchCiteAt
        (w ++ c :: 'S' :: 'o' :: 'u' :: 'r' :: 'c' :: 'e' :: d
          :: (body ++ e :: rest)) = some rest := by
  unfold matchCiteAt
  rw [dropWhileAppendAll _ hw, dropWhileConsNeg _ (citeOpenNotPySpace hc)]
  simp only [hc, if_true]
  rw [if_pos hd]
  have hbody : (d :: (body ++ e :: rest)).dropWhile (fun x => !(isCiteClose x))
      = e :: rest := by
    have h1 : (d :: body) ++ (e :: rest) = d :: (body ++ e :: rest) := by simp
    rw [← h1, dropWhileAppendAll (e :: rest) ?hall,
      dropWhileConsNeg _ (by simp [he])]
    case hall =>
      intro x hx
      rcases List.mem_cons.mp hx with rfl | hx2
      · simp [pySpaceNotCiteClose hd]
      · simp [hb x hx2]
  rw [hbody]

/-- C6 (counterexample): the word Source is matched case-sensitively, not
case-insensitively: a lower-case marker survives post-processing while the
capitalised one is removed. -/
theorem citation_removal_case_sensitive_cex :
    postprocessAnswer (lts "ok (source 1)") = lts "ok (source 1)"
      ∧ postprocessAnswer (lts "ok (Source 1)") = lts "ok"
      ∧ lts "ok (source 1)" ≠ lts "ok" := by
  decide

/-- C6 (amended): post-processing removes every inline citation marker of
the bracket or parenthesis form whose word Source is written exactly with a
capital S (the match is case-sensitive), together with the whitespace
before it, and then trims the answer: a marker at the head of the remaining
text is consumed entirely and processing continues after it. -/
theorem citation_removal_removes_marker
    (w : List Char) (hw : ∀ x ∈ w, isPySpace x = true)
    (c : Char) (hc : isCiteOpen c = true)
    (d : Char) (hd : isPySpace d = true)
    (body : List Char) (hb : ∀ x ∈ body, isCiteClose x = false)
    (e : Char) (he : isCiteClose e = true)
    (rest : List Char) :
    postprocessAnswer
        (w ++ c :: 'S' :: 'o' :: 'u' :: 'r' :: 'c' :: 'e' :: d
          :: (body ++ e :: rest))
      = pyStrip (removeCitations rest) := by
  unfold postprocessAnswer
  rw [removeCitations_step (matchCiteAt_marker w hw c hc d hd body hb e he rest)]

/-- C6 witness: the marker bracket Source 1 bracket with a leading blank is
removed in front of the remaining text. -/
theorem citation_removal_removes_marker_witness :
    postprocessAnswer
        ([' '] ++ '[' :: 'S' :: 'o' :: 'u' :: 'r' :: 'c' :: 'e' :: ' '
          :: (lts "1" ++ ']' :: lts " done"))
      = pyStrip (removeCitations (lts " done")) :=
  citation_removal_removes_marker [' '] (by decide) '[' (by decide) ' '
    (by decide) (lts "1") (by decide) ']' (by decide) (lts " done")

/-! ## Claims about generate_answer's aggregation -/

/-- C4: with zero retrieved context blocks the result is the fixed
no-relevant-information message, no context flag and no sources, and the
generation collaborator is irrelevant to the outcome, so it is never
invoked. -/
theorem generate_answer_no_context_fallback (env : ChatEnv) (q : List Char)
    (n : Nat) (h : (gatherContext env q n).1 = []) :
    generateAnswer env q n =
      { answer := noContextMessage, sources := [], hasContext := false,
        query := q }
    ∧ ∀ llmF, generateAnswer { env with llm := llmF } q n
        = generateAnswer env q n := by
  constructor
  · simp [generateAnswer, h]
  · intro llmF
    have hg : gatherContext { env with llm := llmF } q n = gatherContext env q n := rfl
    simp [generateAnswer, hg, h]

def emptyChatEnv : ChatEnv :=
  { db := { customers := [], tickets := [] },
    rawSearch := fun _ _ => [], llm := fun _ _ => lts "reply" }

/-- C4 witness: a query matching no gate over an empty store retrieves
nothing and yields the fallback result. -/
theorem generate_answer_no_context_fallback_witness :
    generateAnswer emptyChatEnv (lts "zzz") 5 =
      { answer := noContextMessage, sources := [], hasContext := false,
        query := lts "zzz" } :=
  (generate_answer_no_context_fallback emptyChatEnv (lts "zzz") 5 (by decide)).1

/-! ## The ticket-rendering defect of generate_answer (C5) -/

def emaCustomer : Customer :=
  { id := 1, name := lts "Ema Johnson", email := lts "ema.johnson@email.com",
    phone := lts "+1-555-0101", signupDate := lts "2023-06-15",
    accountStatus := lts "active", accountType := lts "premium",
    totalOrders := 12, lifetimeValue := 4500 }

def emaTicket : Ticket :=
  { id := 1, customerId := 1, title := lts "Refund request for order 5001",
    description := lts "I would like a refund.", status := lts "closed",
    createdDate := lts "2024-01-11", resolvedDate := some (lts "2024-01-18"),
    category := lts "refund", priority := lts "high" }

def emaDB : DB := { customers := [emaCustomer], tickets := [emaTicket] }

def chatEnvEma : ChatEnv :=
  { db := emaDB, rawSearch := fun _ _ => [], llm := fun _ _ => [] }

/-- C5: for the query customer Ema Johnson over a store holding Ema Johnson
and one of her support tickets, the single retrieved customer block carries
a Support Tickets header (counting the keys of the returned mapping, not
her tickets) but no ticket subject or status line at all, and every profile
field reads as the fallback because the integer id was passed to the
name-keyed lookups: the claimed rendering of up to three most-recent
tickets never happens. -/
theorem generate_answer_ticket_lines_missing :
    (emaDB.tickets.filter (fun t => t.customerId == emaCustomer.id)).length = 1
    ∧ (gatherContext chatEnvEma (lts "customer Ema Johnson") 5).1.length = 1
    ∧ (gatherContext chatEnvEma (lts "customer Ema Johnson") 5).1.all
        (fun b => containsSub (lts "Support Tickets (1)") b
          && !(containsSub (lts "Refund request") b)
          && !(containsSub (lts "closed") b)
          && containsSub (lts "Email: N/A") b) = true := by
  decide

end TcsMultiAgent
